import Mathlib

/-!
Verification of the parlance terminal raw-mode session manager
(src/ffi/parlance_repl.c), a termios wrapper exposing four operations:
enable raw mode, disable raw mode, query terminal size, read one byte.

The C code is embedded shallowly: the two process-wide globals
(`raw_mode_enabled`, `original_termios`) become a `SessionState` record,
the terminal's live attributes become an explicit `Termios` value threaded
through every operation, and the outcome of each underlying OS call
(tcgetattr / tcsetattr / ioctl / read) is an explicit oracle parameter,
so every control path of the C is a concrete input here.
-/

namespace Parlance

/-- Terminal attributes (struct termios): input, output, control and local
flag words (32-bit on the target platform) and the control-character
array `c_cc` (NCCS entries). -/
structure Termios where
  c_iflag : Nat
  c_oflag : Nat
  c_cflag : Nat
  c_lflag : Nat
  c_cc : List Nat
deriving DecidableEq

/-- Input flag: signal interrupt on break. -/
def BRKINT : Nat := 0x002
/-- Input flag: map CR to NL on input. -/
def ICRNL : Nat := 0x100
/-- Input flag: enable input parity check. -/
def INPCK : Nat := 0x010
/-- Input flag: strip the 8th bit. -/
def ISTRIP : Nat := 0x020
/-- Input flag: enable XON/XOFF software flow control. -/
def IXON : Nat := 0x400
/-- Control flag: 8-bit character size. -/
def CS8 : Nat := 0x030
/-- Local flag: echo input characters. -/
def ECHO : Nat := 0x008
/-- Local flag: canonical (line-buffered) input. -/
def ICANON : Nat := 0x002
/-- Local flag: extended input processing. -/
def IEXTEN : Nat := 0x8000
/-- Local flag: generate signals for INTR, QUIT, SUSP. -/
def ISIG : Nat := 0x001
/-- Index of the read-timeout control character. -/
def VTIME : Nat := 5
/-- Index of the minimum-read-count control character. -/
def VMIN : Nat := 6

/-- Bitwise complement within a 32-bit flag word, as the C `~mask`
applied to a `tcflag_t`. -/
def not32 (m : Nat) : Nat := (2 ^ 32 - 1) ^^^ m

/-- The raw-mode modification the C applies to the captured snapshot:
clear BRKINT, ICRNL, INPCK, ISTRIP, IXON in `c_iflag`; leave `c_oflag`
untouched (OPOST stays on); set CS8 in `c_cflag`; clear ECHO, ICANON,
IEXTEN, ISIG in `c_lflag`; set `c_cc[VMIN]` and `c_cc[VTIME]` to 0. -/
def makeRaw (t : Termios) : Termios :=
  { c_iflag := t.c_iflag &&& not32 (BRKINT ||| ICRNL ||| INPCK ||| ISTRIP ||| IXON)
    c_oflag := t.c_oflag
    c_cflag := t.c_cflag ||| CS8
    c_lflag := t.c_lflag &&& not32 (ECHO ||| ICANON ||| IEXTEN ||| ISIG)
    c_cc := (t.c_cc.set VMIN 0).set VTIME 0 }

/-- The two process-wide globals of parlance_repl.c:
`static int raw_mode_enabled` and `static struct termios original_termios`. -/
structure SessionState where
  raw_mode_enabled : Bool
  original_termios : Termios
deriving DecidableEq

/-- The globals at process start: `raw_mode_enabled = 0` and a
zero-initialized `original_termios` (C static initialization). -/
def initSession : SessionState :=
  { raw_mode_enabled := false
    original_termios := { c_iflag := 0, c_oflag := 0, c_cflag := 0, c_lflag := 0
                          c_cc := List.replicate 32 0 } }

/-- parlance_repl_enable_raw_mode.  `tcgetattr_ok` / `tcsetattr_ok` are the
outcomes of the two OS calls; `t` is the terminal's live attribute state.
Returns the IO result together with the updated globals and terminal. -/
def parlance_repl_enable_raw_mode (tcgetattr_ok tcsetattr_ok : Bool)
    (s : SessionState) (t : Termios) :
    Except String Unit × SessionState × Termios :=
  if s.raw_mode_enabled then
    (Except.ok (), s, t)
  else if !tcgetattr_ok then
    (Except.error "Failed to get terminal attributes", s, t)
  else
    let s1 : SessionState := { s with original_termios := t }
    let raw := makeRaw t
    if !tcsetattr_ok then
      (Except.error "Failed to set terminal to raw mode", s1, t)
    else
      (Except.ok (), { raw_mode_enabled := true, original_termios := t }, raw)

/-- parlance_repl_disable_raw_mode.  `tcsetattr_ok` is the outcome of the
restoring tcsetattr call. -/
def parlance_repl_disable_raw_mode (tcsetattr_ok : Bool)
    (s : SessionState) (t : Termios) :
    Except String Unit × SessionState × Termios :=
  if !s.raw_mode_enabled then
    (Except.ok (), s, t)
  else if !tcsetattr_ok then
    (Except.error "Failed to restore terminal settings", s, t)
  else
    (Except.ok (), { s with raw_mode_enabled := false }, s.original_termios)

/-- parlance_repl_get_size.  `query` is the outcome of the TIOCGWINSZ
ioctl: `none` when the ioctl fails, `some (ws_col, ws_row)` when it
succeeds.  The C falls back to 80x24 when the ioctl fails or reports
zero columns, and always returns an ok result. -/
def parlance_repl_get_size (query : Option (Nat × Nat))
    (s : SessionState) (t : Termios) :
    Except String (Nat × Nat) × SessionState × Termios :=
  match query with
  | none => (Except.ok (80, 24), s, t)
  | some (c, r) =>
    if c = 0 then (Except.ok (80, 24), s, t) else (Except.ok (c, r), s, t)

/-- Outcome of the underlying `read(STDIN_FILENO, &c, 1)` call:
one byte read, zero bytes read, or a read error. -/
inductive ReadOutcome where
  | one (b : Nat)
  | zero
  | err
deriving DecidableEq

/-- parlance_repl_read_byte.  The C returns `some c` exactly when the
read returned 1, and `none` otherwise (zero bytes or error); the IO
result is always ok. -/
def parlance_repl_read_byte (o : ReadOutcome)
    (s : SessionState) (t : Termios) :
    Except String (Option Nat) × SessionState × Termios :=
  match o with
  | ReadOutcome.one b => (Except.ok (some b), s, t)
  | ReadOutcome.zero => (Except.ok none, s, t)
  | ReadOutcome.err => (Except.ok none, s, t)

/-- One invocation of any of the four operations, with any oracle
outcome, taking a (globals, terminal) configuration to its successor. -/
inductive Step : SessionState × Termios → SessionState × Termios → Prop where
  | enable (g st : Bool) (s : SessionState) (t : Termios) :
      Step (s, t) (parlance_repl_enable_raw_mode g st s t).2
  | disable (st : Bool) (s : SessionState) (t : Termios) :
      Step (s, t) (parlance_repl_disable_raw_mode st s t).2
  | size (q : Option (Nat × Nat)) (s : SessionState) (t : Termios) :
      Step (s, t) (parlance_repl_get_size q s t).2
  | read (o : ReadOutcome) (s : SessionState) (t : Termios) :
      Step (s, t) (parlance_repl_read_byte o s t).2

/-- Configurations reachable from process start with initial live
terminal attributes `t0` by any sequence of the four operations. -/
inductive Reachable (t0 : Termios) : SessionState × Termios → Prop where
  | init : Reachable t0 (initSession, t0)
  | step {c c' : SessionState × Termios} :
      Reachable t0 c → Step c c' → Reachable t0 c'

/-- A sample nontrivial terminal attribute state, used to instantiate
theorems with hypotheses at a concrete input. -/
def sampleT : Termios :=
  { c_iflag := 0x2FF, c_oflag := 5, c_cflag := 0x0F, c_lflag := 0x8A3B
    c_cc := List.replicate 32 1 }

/-- A terminal attribute state that is a fixed point of the raw-mode
modification (all the cleared flags already clear, CS8 already set,
VMIN and VTIME already zero). -/
def fixT : Termios := makeRaw initSession.original_termios

lemma get_size_snd (q : Option (Nat × Nat)) (s : SessionState) (t : Termios) :
    (parlance_repl_get_size q s t).2 = (s, t) := by
  cases q with
  | none => rfl
  | some p =>
    obtain ⟨c, r⟩ := p
    by_cases hc : c = 0 <;> simp [parlance_repl_get_size, hc]

lemma read_byte_snd (o : ReadOutcome) (s : SessionState) (t : Termios) :
    (parlance_repl_read_byte o s t).2 = (s, t) := by
  cases o <;> rfl

lemma testBit_not32 (m i : Nat) (hm : m < 2 ^ 32) :
    (not32 m).testBit i = (decide (i < 32) && !m.testBit i) := by
  rw [not32, Nat.testBit_xor, Nat.testBit_two_pow_sub_one]
  by_cases h : i < 32
  · simp [h]
  · have hmi : m.testBit i = false :=
      Nat.testBit_lt_two_pow
        (lt_of_lt_of_le hm (Nat.pow_le_pow_right (by norm_num) (le_of_not_lt h)))
    simp [h, hmi]

lemma land_not32_testBit (x m i : Nat) (hx : x < 2 ^ 32) (hm : m < 2 ^ 32) :
    (x &&& not32 m).testBit i = (x.testBit i && !m.testBit i) := by
  rw [Nat.testBit_land, testBit_not32 m i hm]
  by_cases h : i < 32
  · simp [h]
  · have hxi : x.testBit i = false :=
      Nat.testBit_lt_two_pow
        (lt_of_lt_of_le hx (Nat.pow_le_pow_right (by norm_num) (le_of_not_lt h)))
    simp [hxi]

lemma getD_set_self (l : List Nat) (i v d : Nat) (h : i < l.length) :
    (l.set i v).getD i d = v := by
  simp [List.getD_eq_getElem?_getD, List.getElem?_set_self, h]

lemma getD_set_ne (l : List Nat) (i j v d : Nat) (h : i ≠ j) :
    (l.set i v).getD j d = l.getD j d := by
  simp [List.getD_eq_getElem?_getD, List.getElem?_set_ne, h]

/-- The claim's field-wise description of the attributes applied on
raw-mode entry, relative to the captured snapshot `snap`: the five input
flags cleared, output flags untouched, CS8 forced on, the four local
flags cleared, VMIN and VTIME zero, and every other control character
and flag bit preserved. -/
def RawAttrsSpec (snap applied : Termios) : Prop :=
  (∀ i, applied.c_iflag.testBit i =
    (snap.c_iflag.testBit i &&
      !((BRKINT ||| ICRNL ||| INPCK ||| ISTRIP ||| IXON).testBit i))) ∧
  applied.c_oflag = snap.c_oflag ∧
  (∀ i, applied.c_cflag.testBit i = (snap.c_cflag.testBit i || CS8.testBit i)) ∧
  (∀ i, applied.c_lflag.testBit i =
    (snap.c_lflag.testBit i &&
      !((ECHO ||| ICANON ||| IEXTEN ||| ISIG).testBit i))) ∧
  applied.c_cc.getD VMIN 1 = 0 ∧
  applied.c_cc.getD VTIME 1 = 0 ∧
  (∀ j d, j ≠ VMIN → j ≠ VTIME → applied.c_cc.getD j d = snap.c_cc.getD j d) ∧
  applied.c_cc.length = snap.c_cc.length

lemma makeRaw_rawAttrsSpec (t : Termios) (hi : t.c_iflag < 2 ^ 32)
    (hl : t.c_lflag < 2 ^ 32) (hcc : t.c_cc.length = 32) :
    RawAttrsSpec t (makeRaw t) := by
  refine ⟨?_, rfl, ?_, ?_, ?_, ?_, ?_, ?_⟩
  · intro i
    exact land_not32_testBit t.c_iflag _ i hi (by decide)
  · intro i
    exact Nat.testBit_lor t.c_cflag CS8 i
  · intro i
    exact land_not32_testBit t.c_lflag _ i hl (by decide)
  · show ((t.c_cc.set VMIN 0).set VTIME 0).getD VMIN 1 = 0
    rw [getD_set_ne _ _ _ _ _ (by decide),
      getD_set_self _ _ _ _ (by rw [hcc]; decide)]
  · show ((t.c_cc.set VMIN 0).set VTIME 0).getD VTIME 1 = 0
    rw [getD_set_self _ _ _ _ (by rw [List.length_set, hcc]; decide)]
  · intro j d hm ht
    show ((t.c_cc.set VMIN 0).set VTIME 0).getD j d = t.c_cc.getD j d
    rw [getD_set_ne _ _ _ _ _ (Ne.symm ht), getD_set_ne _ _ _ _ _ (Ne.symm hm)]
  · show ((t.c_cc.set VMIN 0).set VTIME 0).length = t.c_cc.length
    simp

/-- C1: From an inactive session, a succeeding enable_raw_mode followed
by a succeeding disable_raw_mode leaves the terminal's attributes
bit-for-bit identical to their state before the enable call. -/
theorem round_trip_restores_attrs (s : SessionState) (t : Termios)
    (h : s.raw_mode_enabled = false) :
    (parlance_repl_enable_raw_mode true true s t).1 = Except.ok () ∧
    (parlance_repl_disable_raw_mode true
        (parlance_repl_enable_raw_mode true true s t).2.1
        (parlance_repl_enable_raw_mode true true s t).2.2).1 = Except.ok () ∧
    (parlance_repl_disable_raw_mode true
        (parlance_repl_enable_raw_mode true true s t).2.1
        (parlance_repl_enable_raw_mode true true s t).2.2).2.2 = t := by
  simp [parlance_repl_enable_raw_mode, parlance_repl_disable_raw_mode, h]

/-- Witness for C1 at a concrete inactive session and terminal state. -/
theorem round_trip_restores_attrs_witness :
    initSession.raw_mode_enabled = false ∧
    ((parlance_repl_enable_raw_mode true true initSession sampleT).1 = Except.ok () ∧
     (parlance_repl_disable_raw_mode true
        (parlance_repl_enable_raw_mode true true initSession sampleT).2.1
        (parlance_repl_enable_raw_mode true true initSession sampleT).2.2).1 = Except.ok () ∧
     (parlance_repl_disable_raw_mode true
        (parlance_repl_enable_raw_mode true true initSession sampleT).2.1
        (parlance_repl_enable_raw_mode true true initSession sampleT).2.2).2.2 = sampleT) :=
  ⟨rfl, round_trip_restores_attrs initSession sampleT rfl⟩

/-- C2: enable_raw_mode on an active session is a no-op success (for any
oracle outcomes), disable_raw_mode on an inactive session is a no-op
success, a second enable after a successful enable changes nothing, and
a second disable after a disable changes nothing. -/
theorem enable_disable_idempotent (s : SessionState) (t : Termios) :
    (s.raw_mode_enabled = true →
      ∀ g st, parlance_repl_enable_raw_mode g st s t = (Except.ok (), s, t)) ∧
    (s.raw_mode_enabled = false →
      ∀ st, parlance_repl_disable_raw_mode st s t = (Except.ok (), s, t)) ∧
    (∀ g st, parlance_repl_enable_raw_mode g st
        (parlance_repl_enable_raw_mode true true s t).2.1
        (parlance_repl_enable_raw_mode true true s t).2.2 =
      (Except.ok (), (parlance_repl_enable_raw_mode true true s t).2)) ∧
    (∀ st, parlance_repl_disable_raw_mode st
        (parlance_repl_disable_raw_mode true s t).2.1
        (parlance_repl_disable_raw_mode true s t).2.2 =
      (Except.ok (), (parlance_repl_disable_raw_mode true s t).2)) := by
  cases hb : s.raw_mode_enabled <;>
    simp [parlance_repl_enable_raw_mode, parlance_repl_disable_raw_mode, hb]

/-- Witness for C2 at concrete active and inactive sessions. -/
theorem enable_disable_idempotent_witness :
    (SessionState.mk true sampleT).raw_mode_enabled = true ∧
    (∀ g st, parlance_repl_enable_raw_mode g st (SessionState.mk true sampleT) fixT =
      (Except.ok (), SessionState.mk true sampleT, fixT)) ∧
    initSession.raw_mode_enabled = false ∧
    (∀ st, parlance_repl_disable_raw_mode st initSession sampleT =
      (Except.ok (), initSession, sampleT)) :=
  ⟨rfl, (enable_disable_idempotent (SessionState.mk true sampleT) fixT).1 rfl,
   rfl, (enable_disable_idempotent initSession sampleT).2.1 rfl⟩

/-- C5 (amended): get_terminal_size never returns an error, yields
(80, 24) when the winsize query fails or reports zero columns, yields
the reported pair otherwise, and the returned column count is always
positive (the returned row count equals whatever the query reported,
which may be zero). -/
theorem get_size_total (q : Option (Nat × Nat)) (s : SessionState) (t : Termios) :
    (∃ c r, (parlance_repl_get_size q s t).1 = Except.ok (c, r) ∧ 0 < c) ∧
    (q = none → (parlance_repl_get_size q s t).1 = Except.ok (80, 24)) ∧
    (∀ r, q = some (0, r) →
      (parlance_repl_get_size q s t).1 = Except.ok (80, 24)) ∧
    (∀ c r, q = some (c, r) → c ≠ 0 →
      (parlance_repl_get_size q s t).1 = Except.ok (c, r)) := by
  refine ⟨?_, ?_, ?_, ?_⟩
  · cases q with
    | none => exact ⟨80, 24, rfl, by decide⟩
    | some p =>
      obtain ⟨c, r⟩ := p
      by_cases hc : c = 0
      · exact ⟨80, 24, by simp [parlance_repl_get_size, hc], by decide⟩
      · exact ⟨c, r, by simp [parlance_repl_get_size, hc], Nat.pos_of_ne_zero hc⟩
  · intro hq
    subst hq
    rfl
  · intro r hq
    subst hq
    rfl
  · intro c r hq hc
    subst hq
    simp [parlance_repl_get_size, hc]

/-- Counterexample to C5 as stated: when the query succeeds reporting
nonzero columns but zero rows, the returned pair is the reported one and
its row count is not positive. -/
theorem get_size_zero_rows_counterexample :
    (parlance_repl_get_size (some (120, 0)) initSession sampleT).1 =
      Except.ok (120, 0) ∧ ¬ 0 < (120, 0).2 :=
  ⟨rfl, by decide⟩

/-- Witness for C5's amended theorem at a concrete query outcome. -/
theorem get_size_total_witness :
    (some (120, 40) : Option (Nat × Nat)) = some (120, 40) ∧ (120 : Nat) ≠ 0 ∧
    (parlance_repl_get_size (some (120, 40)) initSession sampleT).1 =
      Except.ok (120, 40) :=
  ⟨rfl, by decide,
   (get_size_total (some (120, 40)) initSession sampleT).2.2.2 120 40 rfl (by decide)⟩

/-- C6: read_byte never returns an error at the interface: it returns
some b exactly when the underlying read delivered one byte b, and none
both when zero bytes were available and when the read failed. -/
theorem read_byte_total (o : ReadOutcome) (s : SessionState) (t : Termios) :
    (∀ b, (parlance_repl_read_byte o s t).1 = Except.ok (some b) ↔
      o = ReadOutcome.one b) ∧
    ((parlance_repl_read_byte o s t).1 = Except.ok none ↔
      (o = ReadOutcome.zero ∨ o = ReadOutcome.err)) ∧
    (∀ e, (parlance_repl_read_byte o s t).1 ≠ Except.error e) := by
  cases o <;> simp [parlance_repl_read_byte]

/-- Witness for C6 at concrete read outcomes. -/
theorem read_byte_total_witness :
    (parlance_repl_read_byte (ReadOutcome.one 65) initSession sampleT).1 =
      Except.ok (some 65) ∧
    (parlance_repl_read_byte ReadOutcome.err initSession sampleT).1 =
      Except.ok none :=
  ⟨((read_byte_total (ReadOutcome.one 65) initSession sampleT).1 65).mpr rfl,
   ((read_byte_total ReadOutcome.err initSession sampleT).2.1).mpr (Or.inr rfl)⟩

/-- C7: when enable_raw_mode is called while inactive and tcgetattr
fails, it returns the error "Failed to get terminal attributes" and
leaves the globals and the terminal attributes unchanged. -/
theorem enable_getattr_fail (st : Bool) (s : SessionState) (t : Termios)
    (h : s.raw_mode_enabled = false) :
    parlance_repl_enable_raw_mode false st s t =
      (Except.error "Failed to get terminal attributes", s, t) := by
  simp [parlance_repl_enable_raw_mode, h]

/-- Witness for C7 at a concrete inactive session. -/
theorem enable_getattr_fail_witness :
    initSession.raw_mode_enabled = false ∧
    parlance_repl_enable_raw_mode false true initSession sampleT =
      (Except.error "Failed to get terminal attributes", initSession, sampleT) :=
  ⟨rfl, enable_getattr_fail true initSession sampleT rfl⟩

/-- C8: when enable_raw_mode captures the snapshot but tcsetattr fails,
it returns the error "Failed to set terminal to raw mode", the session
is not marked active, the snapshot holds the captured attributes, and
the terminal is unchanged. -/
theorem enable_setattr_fail (s : SessionState) (t : Termios)
    (h : s.raw_mode_enabled = false) :
    parlance_repl_enable_raw_mode true false s t =
      (Except.error "Failed to set terminal to raw mode",
        { raw_mode_enabled := false, original_termios := t }, t) := by
  cases s with
  | mk b orig =>
    cases h
    simp [parlance_repl_enable_raw_mode]

/-- Witness for C8 at a concrete inactive session. -/
theorem enable_setattr_fail_witness :
    initSession.raw_mode_enabled = false ∧
    parlance_repl_enable_raw_mode true false initSession sampleT =
      (Except.error "Failed to set terminal to raw mode",
        { raw_mode_enabled := false, original_termios := sampleT }, sampleT) :=
  ⟨rfl, enable_setattr_fail initSession sampleT rfl⟩

/-- C9: when disable_raw_mode is called while active and the restoring
tcsetattr fails, it returns the error "Failed to restore terminal
settings" and leaves the session active, the snapshot and the terminal
unchanged. -/
theorem disable_restore_fail (s : SessionState) (t : Termios)
    (h : s.raw_mode_enabled = true) :
    parlance_repl_disable_raw_mode false s t =
      (Except.error "Failed to restore terminal settings", s, t) := by
  simp [parlance_repl_disable_raw_mode, h]

/-- Witness for C9 at a concrete active session. -/
theorem disable_restore_fail_witness :
    (SessionState.mk true sampleT).raw_mode_enabled = true ∧
    parlance_repl_disable_raw_mode false (SessionState.mk true sampleT) fixT =
      (Except.error "Failed to restore terminal settings",
        SessionState.mk true sampleT, fixT) :=
  ⟨rfl, disable_restore_fail (SessionState.mk true sampleT) fixT rfl⟩

/-- C10: get_size and read_byte leave the globals (raw_mode_enabled and
original_termios) and the terminal attributes unchanged, for every
oracle outcome. -/
theorem size_read_preserve_state (q : Option (Nat × Nat)) (o : ReadOutcome)
    (s : SessionState) (t : Termios) :
    (parlance_repl_get_size q s t).2 = (s, t) ∧
    (parlance_repl_read_byte o s t).2 = (s, t) :=
  ⟨get_size_snd q s t, read_byte_snd o s t⟩

/-- C3 (amended): in every configuration reachable from process start by
any sequence of the four operations, whenever raw_mode_enabled is true
the terminal's live attributes equal the raw-mode modification of the
saved snapshot (the attributes captured at the last successful entry).
The converse direction of the claimed iff is refuted separately. -/
theorem raw_mode_invariant (t0 : Termios) (c : SessionState × Termios)
    (h : Reachable t0 c) :
    c.1.raw_mode_enabled = true → c.2 = makeRaw c.1.original_termios := by
  induction h with
  | init =>
    intro ha
    simp [initSession] at ha
  | step hr hstep ih =>
    cases hstep with
    | enable g st s t =>
      intro ha
      by_cases hb : s.raw_mode_enabled = true
      · simp only [parlance_repl_enable_raw_mode, hb, if_true]
        exact ih hb
      · have hb' : s.raw_mode_enabled = false := by
          cases hx : s.raw_mode_enabled
          · rfl
          · exact absurd hx hb
        cases g with
        | false => simp [parlance_repl_enable_raw_mode, hb'] at ha
        | true =>
          cases st with
          | false => simp [parlance_repl_enable_raw_mode, hb'] at ha
          | true => simp [parlance_repl_enable_raw_mode, hb']
    | disable st s t =>
      intro ha
      by_cases hb : s.raw_mode_enabled = true
      · cases st with
        | false =>
          simp only [parlance_repl_disable_raw_mode, hb]
          simpa [parlance_repl_disable_raw_mode, hb] using ih hb
        | true => simp [parlance_repl_disable_raw_mode, hb] at ha
      · have hb' : s.raw_mode_enabled = false := by
          cases hx : s.raw_mode_enabled
          · rfl
          · exact absurd hx hb
        simp only [parlance_repl_disable_raw_mode, hb', Bool.not_false, if_true] at ha
        exact absurd ha (by decide)
    | size q s t =>
      rw [get_size_snd]
      exact ih
    | read o s t =>
      rw [read_byte_snd]
      exact ih

/-- Witness for C3's amended invariant at a concrete reachable active
configuration. -/
theorem raw_mode_invariant_witness :
    Reachable sampleT ((SessionState.mk true sampleT), makeRaw sampleT) ∧
    (SessionState.mk true sampleT).raw_mode_enabled = true ∧
    makeRaw sampleT = makeRaw (SessionState.mk true sampleT).original_termios := by
  have hreach : Reachable sampleT ((SessionState.mk true sampleT), makeRaw sampleT) :=
    Reachable.step Reachable.init (Step.enable true true initSession sampleT)
  exact ⟨hreach, rfl,
    raw_mode_invariant sampleT ((SessionState.mk true sampleT), makeRaw sampleT) hreach rfl⟩

/-- Counterexample to C3's iff as stated: after entering and leaving raw
mode on a terminal whose attributes are a fixed point of the raw-mode
modification, the reachable configuration has raw_mode_enabled false
while the live attributes equal the raw-mode modification of the
snapshot. -/
theorem raw_mode_invariant_iff_counterexample :
    Reachable fixT ((SessionState.mk false fixT), fixT) ∧
    (SessionState.mk false fixT).raw_mode_enabled = false ∧
    fixT = makeRaw (SessionState.mk false fixT).original_termios := by
  refine ⟨?_, rfl, by decide⟩
  have h2 : Reachable fixT ((SessionState.mk true fixT), makeRaw fixT) :=
    Reachable.step Reachable.init (Step.enable true true initSession fixT)
  have h3 : Reachable fixT ((SessionState.mk false fixT), fixT) :=
    Reachable.step h2 (Step.disable true (SessionState.mk true fixT) (makeRaw fixT))
  exact h3

/-- C4: on a successful entry from an inactive session, the call
succeeds, the snapshot captures the pre-call attributes, and the
attributes applied to the terminal are the snapshot with BRKINT, ICRNL,
INPCK, ISTRIP, IXON and ECHO, ICANON, IEXTEN, ISIG cleared, CS8 set,
the output flags untouched, VMIN and VTIME zero, and everything else
preserved. -/
theorem enable_applies_raw_attrs (s : SessionState) (t : Termios)
    (h : s.raw_mode_enabled = false) (hi : t.c_iflag < 2 ^ 32)
    (hl : t.c_lflag < 2 ^ 32) (hcc : t.c_cc.length = 32) :
    (parlance_repl_enable_raw_mode true true s t).1 = Except.ok () ∧
    (parlance_repl_enable_raw_mode true true s t).2.1.original_termios = t ∧
    (parlance_repl_enable_raw_mode true true s t).2.2 = makeRaw t ∧
    RawAttrsSpec t (parlance_repl_enable_raw_mode true true s t).2.2 := by
  have he : parlance_repl_enable_raw_mode true true s t =
      (Except.ok (), { raw_mode_enabled := true, original_termios := t }, makeRaw t) := by
    simp [parlance_repl_enable_raw_mode, h]
  rw [he]
  exact ⟨rfl, rfl, rfl, makeRaw_rawAttrsSpec t hi hl hcc⟩

/-- Witness for C4 at a concrete inactive session and snapshot. -/
theorem enable_applies_raw_attrs_witness :
    (initSession.raw_mode_enabled = false ∧ sampleT.c_iflag < 2 ^ 32 ∧
      sampleT.c_lflag < 2 ^ 32 ∧ sampleT.c_cc.length = 32) ∧
    ((parlance_repl_enable_raw_mode true true initSession sampleT).1 = Except.ok () ∧
     (parlance_repl_enable_raw_mode true true initSession sampleT).2.1.original_termios =
       sampleT ∧
     (parlance_repl_enable_raw_mode true true initSession sampleT).2.2 = makeRaw sampleT ∧
     RawAttrsSpec sampleT (parlance_repl_enable_raw_mode true true initSession sampleT).2.2) :=
  ⟨⟨rfl, by decide, by decide, by decide⟩,
   enable_applies_raw_attrs initSession sampleT rfl (by decide) (by decide) (by decide)⟩

end Parlance
